import Mathlib

/-!
Shallow embedding of `src/adb.py` (class `ADB`): the bounded
command-execution core (process runner, command formatter, output decoder)
and the session-state façade. External effects (the spawned process, its
captured byte streams and return code) are supplied by explicit oracles, so
every definition below is an executable function of its inputs. Python
exceptions are modelled with `Except`.
-/

/-- Python exceptions that the modelled code paths can raise.
`spawnError` stands for the `FileNotFoundError`/`PermissionError` that
`subprocess.Popen` raises when the executable cannot be launched;
`decodeError` for `UnicodeDecodeError` from `bytes.decode("gbk")`;
`unboundLocal` for the `UnboundLocalError` raised by the `return` inside
the `finally` block of `ADB.run` when the try body raised before binding
`stdout`/`stderr`; `other n` is an arbitrary further exception injected by
an oracle. -/
inductive PyExc where
  | spawnError
  | decodeError
  | unboundLocal
  | other (n : Nat)
deriving DecidableEq

/-- Raw outcome of one spawned command, as captured by `subprocess.Popen`
with piped streams: the full stdout bytes, the full stderr bytes, and the
process return code (which `ADB.exec_shell` obtains from `p.wait()` and
then discards). Bytes are modelled as `Nat` values below 256. -/
structure WorldResp where
  stdout : List Nat
  stderr : List Nat
  returncode : Int

/-- Oracle mapping each full command line handed to `subprocess.Popen`
(with `shell=True`) to the captured outcome of running it. -/
abbrev World := String → WorldResp

/-- ASCII whitespace bytes removed by Python `bytes.strip()`:
space (32) and 9..13 (tab, newline, vertical tab, form feed, carriage
return). -/
def isSpaceByte (b : Nat) : Bool := b == 32 || (9 ≤ b && b ≤ 13)

/-- Python `bytes.strip()`: drop leading and trailing ASCII whitespace
bytes. -/
def stripBytes (bs : List Nat) : List Nat :=
  ((bs.dropWhile isSpaceByte).reverse.dropWhile isSpaceByte).reverse

/-- Byte-level model of Python `bytes.decode("gbk")` (strict errors):
a byte below 0x80 decodes as the ASCII character; a byte in 0x81..0xFE
opens a two-byte sequence whose trail byte must lie in 0x40..0xFE and
differ from 0x7F; anything else (including a lone lead byte, a bad trail
byte, or the byte 0x80, which CPython's gbk codec rejects) raises
`UnicodeDecodeError`, modelled as `none`. Valid two-byte sequences are
mapped injectively to characters above the ASCII plane; the concrete GBK
code-point table is irrelevant to every property proved here, which only
inspects ASCII output and decoding failure. -/
def decodeGbk : List Nat → Option (List Char)
  | [] => some []
  | b :: bs =>
    if b < 128 then
      match decodeGbk bs with
      | some cs => some (Char.ofNat b :: cs)
      | none => none
    else if 129 ≤ b && b ≤ 254 then
      match bs with
      | [] => none
      | b2 :: bs2 =>
        if 64 ≤ b2 && b2 ≤ 254 && b2 != 127 then
          match decodeGbk bs2 with
          | some cs => some (Char.ofNat (65536 + b * 256 + b2) :: cs)
          | none => none
        else none
    else none

/-- Encode an ASCII string as its byte sequence (used to build concrete
test inputs for the byte-level functions). -/
def strBytes (s : String) : List Nat := s.data.map Char.toNat

/-- Lines 75-78 of `ADB.exec_shell`: after `p.wait()` (whose return code
is discarded, made explicit here as the unused `returncode` argument) the
code runs `p.stdout.read().strip().decode("gbk")`, then the same for
stderr, and returns `stdout if stdout else stderr` (a Python `str` is
truthy iff non-empty). A `UnicodeDecodeError` on either stream aborts the
call; note the stderr stream is decoded unconditionally, before the
selection between the two streams happens. -/
def exec_shell_output (stdoutBytes stderrBytes : List Nat) (returncode : Int) :
    Except PyExc String :=
  match decodeGbk (stripBytes stdoutBytes) with
  | none => Except.error PyExc.decodeError
  | some so =>
    match decodeGbk (stripBytes stderrBytes) with
    | none => Except.error PyExc.decodeError
    | some se =>
      Except.ok (if so.isEmpty then String.mk se else String.mk so)

/-- Run one command line through the world oracle and post-process its
captured streams exactly as `ADB.exec_shell` does. -/
def runShellLine (world : World) (c : String) : Except PyExc String :=
  exec_shell_output (world c).stdout (world c).stderr (world c).returncode

/-- The class template `__adb_cmd = "adb {device_id} {cmd}"` instantiated
by `str.format` (plain interpolation; the substituted values are passed
through verbatim). -/
def adb_cmd_fmt (device_id c : String) : String :=
  "adb " ++ device_id ++ " " ++ c

/-- The class template `__adb_shell_cmd = "adb {device_id} shell {cmd}"`
instantiated by `str.format`. -/
def adb_shell_fmt (device_id c : String) : String :=
  "adb " ++ device_id ++ " shell " ++ c

/-- `ADB.__init__` lines 25-28: a non-empty `device_id` argument is stored
as the flag segment `-s <device_id>`; an empty one as the empty string. -/
def mkDeviceId (device_id_arg : String) : String :=
  if device_id_arg ≠ "" then "-s " ++ device_id_arg else ""

/-- The full shell-variant invocation built for a session constructed with
target argument `target`: `ADB.shell` formats `__adb_shell_cmd` with the
stored `device_id` segment. -/
def shellInvocation (target c : String) : String :=
  adb_shell_fmt (mkDeviceId target) c

/-- Number of starting positions at which `pat` occurs in a character
list (all positions counted, overlapping occurrences included). -/
def isPre : List Char → List Char → Bool
  | [], _ => true
  | _ :: _, [] => false
  | a :: as, b :: bs => a == b && isPre as bs

/-- Count the suffix positions of `s` at which `pat` occurs. -/
def countOcc (pat : List Char) : List Char → Nat
  | [] => if isPre pat [] then 1 else 0
  | c :: cs => (if isPre pat (c :: cs) then 1 else 0) + countOcc pat cs

/-- Session state set up by `ADB.__init__`: the stored target-flag segment
`device_id`, the `__debug` flag, and the input method `default_ime`
captured during construction. No other attribute is ever assigned on an
`ADB` instance. -/
structure ADBState where
  device_id : String
  debug : Bool
  default_ime : String
deriving DecidableEq

/-- `ADB.exec_shell` as a session operation: logs the command (logging is
out of scope), spawns it through the oracle, and post-processes the
captured streams. The returned triple is (unchanged session state, the
command lines handed to `subprocess.Popen`, the result). -/
def ADB.exec_shell (st : ADBState) (world : World) (c : String) :
    ADBState × List String × Except PyExc String :=
  (st, [c], runShellLine world c)

/-- `ADB.cmd`: format the direct variant with the stored `device_id`
segment and run it through `exec_shell`. -/
def ADB.cmd (st : ADBState) (world : World) (c : String) :
    ADBState × List String × Except PyExc String :=
  ADB.exec_shell st world (adb_cmd_fmt st.device_id c)

/-- `ADB.shell`: format the shell variant with the stored `device_id`
segment and run it through `exec_shell`. -/
def ADB.shell (st : ADBState) (world : World) (c : String) :
    ADBState × List String × Except PyExc String :=
  ADB.exec_shell st world (adb_shell_fmt st.device_id c)

/-- The shell command `ADB.get_current_ime` issues. -/
def imeQueryCmd : String := "settings get secure default_input_method"

/-- `ADB.get_current_ime`: query the current input method through the
shell variant. -/
def ADB.get_current_ime (st : ADBState) (world : World) :
    ADBState × List String × Except PyExc String :=
  ADB.shell st world imeQueryCmd

/-- `ADB.__init__` lines 24-31: store the target-flag segment and debug
flag, then capture the current input method with `get_current_ime` and
assign it to `default_ime` (the only assignment to that attribute in the
class); an exception from the underlying command aborts construction. -/
def ADB.init (device_id_arg : String) (debug : Bool) (world : World) :
    Except PyExc ADBState :=
  match runShellLine world (adb_shell_fmt (mkDeviceId device_id_arg) imeQueryCmd) with
  | Except.error e => Except.error e
  | Except.ok ime =>
    Except.ok { device_id := mkDeviceId device_id_arg, debug := debug,
                default_ime := ime }

/-- Log lines emitted through the injected logger, tagged with their
level. -/
inductive LogEvent where
  | info (msg : String)
  | error (msg : String)
deriving DecidableEq

/-- `ADB.recover_ime` lines 153-164: issue `ime set <default_ime>`,
re-query the current input method, and compare; a match logs an
info-level line and a mismatch logs an error-level line, and in both
cases the method returns normally (`None` in Python). Exceptions from the
underlying commands propagate. The session state is returned untouched:
the method body contains no attribute assignment. -/
def ADB.recover_ime (st : ADBState) (world : World) :
    ADBState × List String × Except PyExc (List LogEvent) :=
  let c1 := adb_shell_fmt st.device_id ("ime set " ++ st.default_ime)
  let c2 := adb_shell_fmt st.device_id imeQueryCmd
  (st,
    match runShellLine world c1 with
    | Except.error e => ([c1], Except.error e)
    | Except.ok _ =>
      match runShellLine world c2 with
      | Except.error e => ([c1, c2], Except.error e)
      | Except.ok current_ime =>
        if current_ime = st.default_ime then
          ([c1, c2], Except.ok [LogEvent.info ("recover ime to " ++ current_ime)])
        else
          ([c1, c2], Except.ok [LogEvent.error "recover ime failed"]))

/-- `ADB.send_key_event`: run `input keyevent <keycode>` through the shell
variant, discard the output (the trailing `sleep(0.5)` is real time and
out of scope), return `None`. -/
def ADB.send_key_event (st : ADBState) (world : World) (keycode : Nat) :
    ADBState × List String × Except PyExc Unit :=
  let r := ADB.shell st world ("input keyevent " ++ toString keycode)
  (r.1, r.2.1, r.2.2.map fun _ => ())

/-- `ADB.tap`: run `input tap <x> <y>` through the shell variant. -/
def ADB.tap (st : ADBState) (world : World) (x y : Int) :
    ADBState × List String × Except PyExc Unit :=
  let r := ADB.shell st world ("input tap " ++ toString x ++ " " ++ toString y)
  (r.1, r.2.1, r.2.2.map fun _ => ())

/-- `ADB.swipe_down`: run `input swipe 500 <height> 500 0`. -/
def ADB.swipe_down (st : ADBState) (world : World) (height : Nat) :
    ADBState × List String × Except PyExc Unit :=
  let r := ADB.shell st world ("input swipe 500 " ++ toString height ++ " 500 0")
  (r.1, r.2.1, r.2.2.map fun _ => ())

/-- `ADB.swipe_up`: run `input swipe 500 500 500 <height + 500>`. -/
def ADB.swipe_up (st : ADBState) (world : World) (height : Nat) :
    ADBState × List String × Except PyExc Unit :=
  let r := ADB.shell st world ("input swipe 500 500 500 " ++ toString (height + 500))
  (r.1, r.2.1, r.2.2.map fun _ => ())

/-- `ADB.swipe_left`: run `input swipe 500 500 0 500`. -/
def ADB.swipe_left (st : ADBState) (world : World) :
    ADBState × List String × Except PyExc Unit :=
  let r := ADB.shell st world "input swipe 500 500 0 500"
  (r.1, r.2.1, r.2.2.map fun _ => ())

/-- `ADB.swipe_right`: run `input swipe 500 500 1000 500`. -/
def ADB.swipe_right (st : ADBState) (world : World) :
    ADBState × List String × Except PyExc Unit :=
  let r := ADB.shell st world "input swipe 500 500 1000 500"
  (r.1, r.2.1, r.2.2.map fun _ => ())

/-- `ADB.is_install_app`: run `pm list packages <package_name>` and return
its output. -/
def ADB.is_install_app (st : ADBState) (world : World) (package_name : String) :
    ADBState × List String × Except PyExc String :=
  ADB.shell st world ("pm list packages " ++ package_name)

/-- The `finally` block of `ADB.run` (lines 398-400): `timer.cancel()`
followed by `return stdout if stdout else stderr`. If the try body
completed, the locals `stdout`/`stderr` are bound and the `return`
delivers the selected stream; if the try body raised, the locals are
unbound, so evaluating the `return` expression raises
`UnboundLocalError`, which replaces the in-flight exception. -/
def runFinallyReturn (body : Except PyExc (List Nat × List Nat)) :
    Except PyExc (List Nat) :=
  match body with
  | Except.ok (so, se) => Except.ok (if so.isEmpty then se else so)
  | Except.error _ => Except.error PyExc.unboundLocal

/-- Control-flow skeleton of the static method `ADB.run` (lines 380-400):
`subprocess.Popen(shlex.split(cmd), ...)` runs before the `try`, so a
spawn failure propagates as raised; then the try body starts the kill
timer and calls `proc.communicate()` (both supplied as oracles, either of
which may raise), and the `finally` block runs `runFinallyReturn`. The
return code of the process is never consulted. -/
def ADB.run (spawn : Except PyExc Unit) (timerStart : Except PyExc Unit)
    (communicate : Except PyExc (List Nat × List Nat)) : Except PyExc (List Nat) :=
  match spawn with
  | Except.error e => Except.error e
  | Except.ok _ =>
    runFinallyReturn
      (match timerStart with
       | Except.error e => Except.error e
       | Except.ok _ => communicate)

/-- A spawned external process, for the timeout model of `ADB.run`:
`stdoutAt t` / `stderrAt t` are the bytes it has written to each pipe by
wall-clock time `t`, and `exitTime` is when it would exit naturally.
Time is discretised to natural number ticks. -/
structure Process where
  stdoutAt : Nat → List Nat
  stderrAt : Nat → List Nat
  exitTime : Nat

/-- `Timer(timeout_sec, lambda p: p.kill(), [proc])` raced against
`proc.communicate()`: if the process exits within the timeout,
`communicate` returns the complete output and the timer is later
cancelled without firing; otherwise the timer fires at `timeout_sec`,
kills the process, and `communicate` returns normally with whatever bytes
were captured up to the kill. The second component records whether the
kill fired. -/
def communicateTimed (p : Process) (timeout_sec : Nat) :
    (List Nat × List Nat) × Bool :=
  if p.exitTime ≤ timeout_sec then
    ((p.stdoutAt p.exitTime, p.stderrAt p.exitTime), false)
  else
    ((p.stdoutAt timeout_sec, p.stderrAt timeout_sec), true)

/-- `ADB.run` applied to a successfully spawned process under the timer
semantics: the pair is (the value `run` returns, whether the timer killed
the process). -/
def ADB.runTimed (p : Process) (timeout_sec : Nat) :
    Except PyExc (List Nat) × Bool :=
  let c := communicateTimed p timeout_sec
  (ADB.run (Except.ok ()) (Except.ok ()) (Except.ok c.1), c.2)

/-- Python `\w` on the ASCII range: letters, digits and underscore. -/
def isWordChar (c : Char) : Bool := c.isAlphanum || c == '_'

/-- Python `\s` on the ASCII range: space, tab, newline, carriage return,
vertical tab, form feed. -/
def isSpaceChar (c : Char) : Bool :=
  c == ' ' || c == '\t' || c == '\n' || c == '\r' || c == '\x0b' || c == '\x0c'

/-- The literal `device` of the pattern used by
`ADB.get_connected_device_list`. -/
def deviceToken : List Char := ['d', 'e', 'v', 'i', 'c', 'e']

/-- One attempted match of the regex `\b(\w+)\sdevice\b` at the current
position of `s`, where `pw` says whether the character just before `s` is
a word character (so `\b` holds at the position iff `pw` is false, given
that `\w+` must start with a word character). The greedy `\w+` must take
the whole maximal word run, since shorter takes leave a word character
where `\s` is required. On success, returns the captured group and the
remainder of the text after the match. -/
def matchDeviceAt (pw : Bool) (s : List Char) : Option (List Char × List Char) :=
  if pw then none
  else
    let w := s.takeWhile isWordChar
    if w = [] then none
    else
      match s.dropWhile isWordChar with
      | [] => none
      | sp :: r2 =>
        if isSpaceChar sp then
          if deviceToken.isPrefixOf r2 then
            match r2.drop 6 with
            | [] => some (w, [])
            | c :: cs => if isWordChar c then none else some (w, c :: cs)
          else none
        else none

/-- Left-to-right scan of `re.findall(r"\b(\w+)\sdevice\b", text)`:
record each non-overlapping match's captured group and resume after the
match (the character before the resume point is the final `e` of
`device`, a word character). The fuel argument bounds the recursion; the
scan consumes at least one character per step, so fuel equal to the text
length is sufficient. -/
def goFind : Nat → Bool → List Char → List (List Char)
  | 0, _, _ => []
  | _ + 1, _, [] => []
  | fuel + 1, pw, c :: cs =>
    match matchDeviceAt pw (c :: cs) with
    | some (w, rest) => w :: goFind fuel true rest
    | none => goFind fuel (isWordChar c) cs

/-- `re.findall(r"\b(\w+)\sdevice\b", text)` from
`ADB.get_connected_device_list`, returning the captured identifiers in
order of appearance. -/
def findallDevice (text : String) : List String :=
  (goFind text.data.length false text.data).map fun w => String.mk w

/-- `ADB.get_connected_device_list` lines 238-245: run `adb devices`
through `exec_shell` (note: without the target-flag segment) and apply
the regex scan to the resulting text. -/
def ADB.get_connected_device_list (st : ADBState) (world : World) :
    ADBState × List String × Except PyExc (List String) :=
  let r := ADB.exec_shell st world "adb devices"
  (r.1, r.2.1, r.2.2.map findallDevice)

/-- Two strings with the same character data are equal. -/
theorem strEq_of_data (s t : String) (h : s.data = t.data) : s = t := by
  cases s; cases t; exact congrArg String.mk h

/-- A fixed session state used by concrete witnesses. -/
def stDefault : ADBState := { device_id := "", debug := true, default_ime := "" }

/-- Oracle answering every command with stdout `3`, stderr `ignored`,
exit code 0. -/
def worldStdout3 : World := fun _ => ⟨strBytes "3", strBytes "ignored", 0⟩

/-- C1: for every pair of captured stdout/stderr byte outputs that decode,
the command-execution path returns the trimmed, decoded stdout when it is
non-empty after trimming, and otherwise the trimmed, decoded stderr; in
particular stdout empty with stderr `permission denied` yields
`permission denied`, and stdout `3` with stderr `ignored` yields `3`. -/
theorem c1_exec_shell_stdout_else_stderr :
    (∀ (st : ADBState) (world : World) (c : String) (s t : List Char),
      decodeGbk (stripBytes (world c).stdout) = some s →
      decodeGbk (stripBytes (world c).stderr) = some t →
      (ADB.exec_shell st world c).2.2 =
        Except.ok (if s.isEmpty then String.mk t else String.mk s)) ∧
    exec_shell_output (strBytes "") (strBytes "permission denied") 0 =
      Except.ok "permission denied" ∧
    exec_shell_output (strBytes "3") (strBytes "ignored") 0 = Except.ok "3" := by
  refine ⟨?_, rfl, rfl⟩
  intro st world c s t h1 h2
  simp [ADB.exec_shell, runShellLine, exec_shell_output, h1, h2]

theorem c1_witness :
    decodeGbk (stripBytes (worldStdout3 "adb  shell pwd").stdout) = some ['3'] ∧
    decodeGbk (stripBytes (worldStdout3 "adb  shell pwd").stderr) =
      some ['i', 'g', 'n', 'o', 'r', 'e', 'd'] ∧
    (ADB.exec_shell stDefault worldStdout3 "adb  shell pwd").2.2 =
      Except.ok (if (['3'] : List Char).isEmpty then
        String.mk ['i', 'g', 'n', 'o', 'r', 'e', 'd'] else String.mk ['3']) :=
  ⟨rfl, rfl,
    c1_exec_shell_stdout_else_stderr.1 stDefault worldStdout3 "adb  shell pwd"
      ['3'] ['i', 'g', 'n', 'o', 'r', 'e', 'd'] rfl rfl⟩

/-- C2: whenever the configured timeout elapses before the external
process exits, `run` kills the process (the timer fires) and still
returns the partial stdout captured so far, or the partial stderr when
the partial stdout is empty, without raising any exception. -/
theorem c2_timeout_kill_partial_output :
    ∀ (p : Process) (timeout_sec : Nat),
      timeout_sec < p.exitTime →
      (ADB.runTimed p timeout_sec).2 = true ∧
      (ADB.runTimed p timeout_sec).1 =
        Except.ok (if (p.stdoutAt timeout_sec).isEmpty then p.stderrAt timeout_sec
                   else p.stdoutAt timeout_sec) := by
  intro p timeout_sec h
  have hnle : ¬ p.exitTime ≤ timeout_sec := by omega
  constructor
  · simp [ADB.runTimed, communicateTimed, hnle]
  · simp [ADB.runTimed, communicateTimed, hnle, ADB.run, runFinallyReturn]

/-- A process that would exit at time 5, having written the byte `k` to
stderr from time 1 on and nothing to stdout. -/
def procSlow : Process :=
  { stdoutAt := fun _ => [], stderrAt := fun t => if 1 ≤ t then [107] else [],
    exitTime := 5 }

theorem c2_witness :
    1 < procSlow.exitTime ∧
    ((ADB.runTimed procSlow 1).2 = true ∧
     (ADB.runTimed procSlow 1).1 =
       Except.ok (if (procSlow.stdoutAt 1).isEmpty then procSlow.stderrAt 1
                  else procSlow.stdoutAt 1)) :=
  ⟨by decide, c2_timeout_kill_partial_output procSlow 1 (by decide)⟩

/-- C3: the cleanup (`finally`) block of `run` contains a `return`, and it
masks exceptions: for any exception raised inside the try body (at timer
start or at output retrieval), `run` does not propagate that exception;
evaluating the `return stdout if stdout else stderr` with the locals
unbound produces a different error (`UnboundLocalError`) instead. -/
theorem c3_finally_masks_exception :
    ∀ (e : PyExc) (communicate : Except PyExc (List Nat × List Nat)),
      e ≠ PyExc.unboundLocal →
      (ADB.run (Except.ok ()) (Except.error e) communicate =
         Except.error PyExc.unboundLocal ∧
       ADB.run (Except.ok ()) (Except.error e) communicate ≠ Except.error e) ∧
      (ADB.run (Except.ok ()) (Except.ok ()) (Except.error e) =
         Except.error PyExc.unboundLocal ∧
       ADB.run (Except.ok ()) (Except.ok ()) (Except.error e) ≠ Except.error e) := by
  intro e communicate he
  refine ⟨⟨rfl, ?_⟩, ⟨rfl, ?_⟩⟩ <;>
    · intro hc
      simp only [ADB.run, runFinallyReturn] at hc
      exact he (Except.error.inj hc).symm

theorem c3_witness :
    PyExc.other 0 ≠ PyExc.unboundLocal ∧
    ((ADB.run (Except.ok ()) (Except.error (PyExc.other 0)) (Except.ok ([], [])) =
        Except.error PyExc.unboundLocal ∧
      ADB.run (Except.ok ()) (Except.error (PyExc.other 0)) (Except.ok ([], [])) ≠
        Except.error (PyExc.other 0)) ∧
     (ADB.run (Except.ok ()) (Except.ok ()) (Except.error (PyExc.other 0)) =
        Except.error PyExc.unboundLocal ∧
      ADB.run (Except.ok ()) (Except.ok ()) (Except.error (PyExc.other 0)) ≠
        Except.error (PyExc.other 0))) :=
  ⟨by decide, c3_finally_masks_exception (PyExc.other 0) (Except.ok ([], [])) (by decide)⟩

/-- The finally-block return of `run` never produces a spawn error: its
outcomes are a selected output or `UnboundLocalError`. -/
theorem runFinallyReturn_ne_spawn (body : Except PyExc (List Nat × List Nat)) :
    runFinallyReturn body ≠ Except.error PyExc.spawnError := by
  cases body with
  | ok v => cases v; simp [runFinallyReturn]
  | error e => simp [runFinallyReturn]

/-- C5: the runner fails with a spawn error only when `Popen` itself
failed (a spawn failure propagates unchanged, and a successful spawn can
never produce one); a nonzero exit status never raises: on normal
completion `run` returns the selected captured output whatever the exit
status, and the `exec_shell` path ignores the return code entirely and
returns the captured output whenever it decodes. -/
theorem c5_spawn_error_only_nonzero_exit_ok :
    (∀ (e : PyExc) (ts : Except PyExc Unit) (comm : Except PyExc (List Nat × List Nat)),
       ADB.run (Except.error e) ts comm = Except.error e) ∧
    (∀ (ts : Except PyExc Unit) (comm : Except PyExc (List Nat × List Nat)),
       ADB.run (Except.ok ()) ts comm ≠ Except.error PyExc.spawnError) ∧
    (∀ so se : List Nat, ADB.run (Except.ok ()) (Except.ok ()) (Except.ok (so, se)) =
       Except.ok (if so.isEmpty then se else so)) ∧
    (∀ (so se : List Nat) (rc rc' : Int), exec_shell_output so se rc = exec_shell_output so se rc') ∧
    (∀ (so se : List Nat) (rc : Int) (s t : List Char),
       decodeGbk (stripBytes so) = some s →
       decodeGbk (stripBytes se) = some t →
       exec_shell_output so se rc =
         Except.ok (if s.isEmpty then String.mk t else String.mk s)) := by
  refine ⟨fun e ts comm => rfl, ?_, fun so se => rfl, fun so se rc rc' => rfl, ?_⟩
  · intro ts comm
    exact runFinallyReturn_ne_spawn _
  · intro so se rc s t h1 h2
    simp [exec_shell_output, h1, h2]

theorem c5_witness :
    decodeGbk (stripBytes (strBytes "ok")) = some ['o', 'k'] ∧
    decodeGbk (stripBytes (strBytes "")) = some [] ∧
    exec_shell_output (strBytes "ok") (strBytes "") 7 =
      Except.ok (if (['o', 'k'] : List Char).isEmpty then String.mk []
                 else String.mk ['o', 'k']) :=
  ⟨rfl, rfl,
    c5_spawn_error_only_nonzero_exit_ok.2.2.2.2 (strBytes "ok") (strBytes "") 7
      ['o', 'k'] [] rfl rfl⟩

/-- Oracle whose stdout bytes cannot be decoded as GBK. -/
def worldBadStdout : World := fun _ => ⟨[255], [], 0⟩

/-- C7: when captured bytes cannot be interpreted under the primary
encoding (there is no fallback in this code), the decode error is
returned to the immediate caller of the command path instead of any
text result — for an undecodable stdout, and likewise for an
undecodable stderr even when stdout decoded. -/
theorem c7_decode_error_propagates :
    (∀ (so se : List Nat) (rc : Int), decodeGbk (stripBytes so) = none →
       exec_shell_output so se rc = Except.error PyExc.decodeError) ∧
    (∀ (so se : List Nat) (rc : Int) (s : List Char),
       decodeGbk (stripBytes so) = some s →
       decodeGbk (stripBytes se) = none →
       exec_shell_output so se rc = Except.error PyExc.decodeError) ∧
    (∀ (st : ADBState) (world : World) (c : String),
       decodeGbk (stripBytes (world (adb_shell_fmt st.device_id c)).stdout) = none →
       (ADB.shell st world c).2.2 = Except.error PyExc.decodeError) := by
  refine ⟨?_, ?_, ?_⟩
  · intro so se rc h
    simp [exec_shell_output, h]
  · intro so se rc s h1 h2
    simp [exec_shell_output, h1, h2]
  · intro st world c h
    simp [ADB.shell, ADB.exec_shell, runShellLine, exec_shell_output, h]

theorem c7_witness :
    decodeGbk (stripBytes (worldBadStdout (adb_shell_fmt stDefault.device_id "ls")).stdout) =
      none ∧
    (ADB.shell stDefault worldBadStdout "ls").2.2 = Except.error PyExc.decodeError :=
  ⟨rfl, c7_decode_error_propagates.2.2 stDefault worldBadStdout "ls" rfl⟩

/-- C10: `exec_shell` decodes the captured stderr bytes unconditionally
before selecting which stream to return: there is a pair of outputs whose
stdout strips and decodes to the non-empty text `3` (which would be the
return value) while the stderr bytes do not decode, and on it the call
returns a decode error, whatever the exit status, instead of the stdout
text. -/
theorem c10_stderr_decoded_unconditionally :
    ∃ stdoutBytes stderrBytes : List Nat,
      decodeGbk (stripBytes stdoutBytes) = some ['3'] ∧
      (['3'] : List Char) ≠ [] ∧
      ∀ rc : Int, exec_shell_output stdoutBytes stderrBytes rc =
        Except.error PyExc.decodeError :=
  ⟨strBytes "3", [255], rfl, by decide, fun rc => rfl⟩

/-- Oracle for the restore witness: the IME query returns `other`, every
other command returns `done`. -/
def worldImeMismatch : World := fun c =>
  if c = adb_shell_fmt "" imeQueryCmd then ⟨strBytes "other", [], 0⟩
  else ⟨strBytes "done", [], 0⟩

/-- C8: `recover_ime` issues the ime-set command with the captured
default value and then the re-query command; when both underlying
commands complete it returns normally whatever the comparison says — a
mismatch is reported as an error-level log line and a match as an
info-level one, and no exception is thrown on a mismatch. -/
theorem c8_recover_ime_reports_mismatch :
    ∀ (st : ADBState) (world : World) (r1 cur : String),
      runShellLine world (adb_shell_fmt st.device_id ("ime set " ++ st.default_ime)) =
        Except.ok r1 →
      runShellLine world (adb_shell_fmt st.device_id imeQueryCmd) = Except.ok cur →
      (ADB.recover_ime st world).2.1 =
        [adb_shell_fmt st.device_id ("ime set " ++ st.default_ime),
         adb_shell_fmt st.device_id imeQueryCmd] ∧
      (cur ≠ st.default_ime →
        (ADB.recover_ime st world).2.2 = Except.ok [LogEvent.error "recover ime failed"]) ∧
      (cur = st.default_ime →
        (ADB.recover_ime st world).2.2 =
          Except.ok [LogEvent.info ("recover ime to " ++ cur)]) := by
  intro st world r1 cur h1 h2
  refine ⟨?_, ?_, ?_⟩
  · rcases eq_or_ne cur st.default_ime with h | h <;>
      simp [ADB.recover_ime, h1, h2, h]
  · intro h
    simp [ADB.recover_ime, h1, h2, h]
  · intro h
    simp [ADB.recover_ime, h1, h2, h]

theorem c8_witness :
    (ADB.recover_ime ⟨"", true, "orig"⟩ worldImeMismatch).2.1 =
      [adb_shell_fmt "" ("ime set " ++ "orig"), adb_shell_fmt "" imeQueryCmd] ∧
    (ADB.recover_ime ⟨"", true, "orig"⟩ worldImeMismatch).2.2 =
      Except.ok [LogEvent.error "recover ime failed"] :=
  ⟨(c8_recover_ime_reports_mismatch ⟨"", true, "orig"⟩ worldImeMismatch "done" "other"
      rfl rfl).1,
   (c8_recover_ime_reports_mismatch ⟨"", true, "orig"⟩ worldImeMismatch "done" "other"
      rfl rfl).2.1 (by decide)⟩

/-- Oracle answering every command with empty stdout and stderr. -/
def worldEmpty : World := fun _ => ⟨[], [], 0⟩

/-- C9: every public operation leaves the session state untouched — the
target-flag segment, the debug flag and the captured default input method
are whatever `__init__` stored, for the session's lifetime; and `__init__`
stores the target flag built from its argument, the given debug flag, and
the result of the input-method query as the one-time value of
`default_ime`. -/
theorem c9_session_state_immutable :
    (∀ (st : ADBState) (world : World) (c : String), (ADB.cmd st world c).1 = st) ∧
    (∀ (st : ADBState) (world : World) (c : String), (ADB.shell st world c).1 = st) ∧
    (∀ (st : ADBState) (world : World) (c : String), (ADB.exec_shell st world c).1 = st) ∧
    (∀ (st : ADBState) (world : World) (k : Nat), (ADB.send_key_event st world k).1 = st) ∧
    (∀ (st : ADBState) (world : World) (x y : Int), (ADB.tap st world x y).1 = st) ∧
    (∀ (st : ADBState) (world : World) (h : Nat), (ADB.swipe_down st world h).1 = st) ∧
    (∀ (st : ADBState) (world : World) (h : Nat), (ADB.swipe_up st world h).1 = st) ∧
    (∀ (st : ADBState) (world : World), (ADB.swipe_left st world).1 = st) ∧
    (∀ (st : ADBState) (world : World), (ADB.swipe_right st world).1 = st) ∧
    (∀ (st : ADBState) (world : World), (ADB.get_current_ime st world).1 = st) ∧
    (∀ (st : ADBState) (world : World) (p : String), (ADB.is_install_app st world p).1 = st) ∧
    (∀ (st : ADBState) (world : World), (ADB.recover_ime st world).1 = st) ∧
    (∀ (st : ADBState) (world : World), (ADB.get_connected_device_list st world).1 = st) ∧
    (∀ (dev : String) (dbg : Bool) (world : World) (st' : ADBState),
       ADB.init dev dbg world = Except.ok st' →
       st'.device_id = mkDeviceId dev ∧ st'.debug = dbg ∧
       runShellLine world (adb_shell_fmt (mkDeviceId dev) imeQueryCmd) =
         Except.ok st'.default_ime) := by
  refine ⟨fun st world c => rfl, fun st world c => rfl, fun st world c => rfl,
    fun st world k => rfl, fun st world x y => rfl, fun st world h => rfl,
    fun st world h => rfl, fun st world => rfl, fun st world => rfl,
    fun st world => rfl, fun st world p => rfl, fun st world => rfl,
    fun st world => rfl, ?_⟩
  intro dev dbg world st' h
  unfold ADB.init at h
  cases hm : runShellLine world (adb_shell_fmt (mkDeviceId dev) imeQueryCmd) with
  | error e => rw [hm] at h; exact absurd h (by simp)
  | ok ime =>
    rw [hm] at h
    have hst : st' = ⟨mkDeviceId dev, dbg, ime⟩ := (Except.ok.inj h).symm
    subst hst
    exact ⟨rfl, rfl, rfl⟩

theorem c9_witness :
    ADB.init "" true worldEmpty = Except.ok ⟨"", true, ""⟩ ∧
    ((⟨"", true, ""⟩ : ADBState).device_id = mkDeviceId "" ∧
     (⟨"", true, ""⟩ : ADBState).debug = true ∧
     runShellLine worldEmpty (adb_shell_fmt (mkDeviceId "") imeQueryCmd) =
       Except.ok (⟨"", true, ""⟩ : ADBState).default_ime) :=
  ⟨rfl,
   c9_session_state_immutable.2.2.2.2.2.2.2.2.2.2.2.2.2 "" true worldEmpty
     ⟨"", true, ""⟩ rfl⟩

/-- A list is a Boolean prefix of itself followed by anything. -/
theorem isPre_self_append (p r : List Char) : isPre p (p ++ r) = true := by
  induction p with
  | nil => rfl
  | cons a as ih => simp [isPre, ih]

/-- With a bound target, the flag occurrence in the fixed `adb -s ` prefix
is the only one as soon as the tail holds no further occurrence. -/
theorem countOcc_flag (t c : String)
    (h : countOcc ("-s " ++ t).data ("s " ++ t ++ " shell " ++ c).data = 0) :
    countOcc ("-s " ++ t).data (("adb " ++ ("-s " ++ t) ++ " shell ") ++ c).data = 1 := by
  have hp : ("-s " ++ t).data = '-' :: 's' :: ' ' :: t.data := by
    rw [String.data_append]; rfl
  have hfull : (("adb " ++ ("-s " ++ t) ++ " shell ") ++ c).data =
      'a' :: 'd' :: 'b' :: ' ' :: ('-' :: 's' :: ' ' :: (t.data ++
        (' ' :: 's' :: 'h' :: 'e' :: 'l' :: 'l' :: ' ' :: c.data))) := by
    simp only [String.data_append, List.append_assoc]
    rfl
  have hsuf : ("s " ++ t ++ " shell " ++ c).data =
      's' :: ' ' :: (t.data ++ (' ' :: 's' :: 'h' :: 'e' :: 'l' :: 'l' :: ' ' :: c.data)) := by
    simp only [String.data_append, List.append_assoc]
    rfl
  rw [hp, hsuf] at h
  simp [countOcc, isPre] at h
  rw [hp, hfull]
  simp [countOcc, isPre, isPre_self_append, h]

/-- C6 counterexample: with bound target `x` and the command
`echo -s x`, the formatted invocation contains the substring `-s x`
twice, not exactly once as the claim states for every command string. -/
theorem c6_counterexample :
    countOcc ("-s x").data (shellInvocation "x" "echo -s x").data = 2 ∧
    countOcc ("-s x").data (shellInvocation "x" "echo -s x").data ≠ 1 := by
  constructor <;> decide

/-- C6 (amended): with no bound target the shell formatter produces
exactly `adb  shell ` followed by the command, and with a bound target
`t` it produces exactly `adb -s ` ++ t ++ ` shell ` ++ cmd — the command
is passed through verbatim as a suffix and the target flag sits in the
fixed prefix, before `shell`. The flag substring `-s t` therefore occurs
exactly once provided it does not also occur in the rest of the text
(as it does when the command itself contains `-s t`). -/
theorem c6_shell_formatter :
    (∀ c : String, shellInvocation "" c = "adb  shell " ++ c) ∧
    (∀ t c : String, t ≠ "" → shellInvocation t c = "adb -s " ++ t ++ " shell " ++ c) ∧
    (∀ t c : String, t ≠ "" →
      countOcc ("-s " ++ t).data ("s " ++ t ++ " shell " ++ c).data = 0 →
      countOcc ("-s " ++ t).data (shellInvocation t c).data = 1) := by
  refine ⟨fun c => rfl, ?_, ?_⟩
  · intro t c ht
    have hm : mkDeviceId t = "-s " ++ t := by simp [mkDeviceId, ht]
    apply strEq_of_data
    simp only [shellInvocation, adb_shell_fmt, hm, String.data_append,
      List.append_assoc]
    rfl
  · intro t c ht h
    have hm : mkDeviceId t = "-s " ++ t := by simp [mkDeviceId, ht]
    show countOcc ("-s " ++ t).data (adb_shell_fmt (mkDeviceId t) c).data = 1
    rw [show adb_shell_fmt (mkDeviceId t) c =
          ("adb " ++ ("-s " ++ t) ++ " shell ") ++ c by
        simp [adb_shell_fmt, hm]]
    exact countOcc_flag t c h

theorem c6_witness :
    ("x" : String) ≠ "" ∧
    countOcc ("-s " ++ "x").data ("s " ++ "x" ++ " shell " ++ "echo ls").data = 0 ∧
    countOcc ("-s " ++ "x").data (shellInvocation "x" "echo ls").data = 1 :=
  ⟨by decide, by decide,
    c6_shell_formatter.2.2 "x" "echo ls" (by decide) (by decide)⟩

/-- A whitespace character is not a word character. -/
theorem space_not_word (c : Char) (h : isSpaceChar c = true) : isWordChar c = false := by
  simp only [isSpaceChar, Bool.or_eq_true, beq_iff_eq] at h
  rcases h with ((((h | h) | h) | h) | h) | h <;> subst h <;> decide

/-- Scanning a word run followed by a non-word character splits at the
run boundary. -/
theorem takeWhile_word_line (id : List Char) (ws : Char) (r : List Char)
    (h : ∀ c ∈ id, isWordChar c = true) (hw : isWordChar ws = false) :
    (id ++ ws :: r).takeWhile isWordChar = id ∧
    (id ++ ws :: r).dropWhile isWordChar = ws :: r := by
  induction id with
  | nil => simp [List.takeWhile, List.dropWhile, hw]
  | cons a as ih =>
    have ha : isWordChar a = true := h a (by simp)
    have ih2 := ih fun c hc => h c (by simp [hc])
    simp [List.takeWhile, List.dropWhile, ha, ih2.1, ih2.2]

/-- The scan of an empty text yields nothing, whatever the fuel. -/
theorem goFind_nilList (fuel : Nat) (pw : Bool) : goFind fuel pw [] = [] := by
  cases fuel <;> rfl

/-- At the start of a line `<identifier><one whitespace>device`, the
pattern matches and captures the identifier, consuming the line. -/
theorem matchDeviceAt_line (id : List Char) (ws : Char) (hne : id ≠ [])
    (h : ∀ c ∈ id, isWordChar c = true) (hs : isSpaceChar ws = true) :
    matchDeviceAt false (id ++ ws :: deviceToken) = some (id, []) := by
  have hw := space_not_word ws hs
  have ht := takeWhile_word_line id ws deviceToken h hw
  simp [matchDeviceAt, ht.1, ht.2, hne, hs]
  rfl

/-- The scan of one full line `<identifier><one whitespace>device`
returns exactly the identifier. -/
theorem goFind_line (fuel : Nat) (id : List Char) (ws : Char) (hne : id ≠ [])
    (h : ∀ c ∈ id, isWordChar c = true) (hs : isSpaceChar ws = true) :
    goFind (fuel + 1) false (id ++ ws :: deviceToken) = [id] := by
  cases id with
  | nil => exact absurd rfl hne
  | cons a as =>
    have hm := matchDeviceAt_line (a :: as) ws hne h hs
    rw [List.cons_append] at hm
    show goFind (fuel + 1) false (a :: (as ++ ws :: deviceToken)) = [a :: as]
    simp [goFind, hm, goFind_nilList]

/-- C4 counterexample: on the claim's own raw text, where each identifier
is separated from `device` by two spaces, the enumeration returns the
empty list — the regex requires exactly one whitespace character between
the identifier and `device`, so neither line matches. -/
theorem c4_counterexample :
    findallDevice "List of devices attached\nABC123  device\nDEF456  device" ≠
      ["ABC123", "DEF456"] := by
  decide

/-- C4 (amended): the enumeration collects, in order of appearance, the
identifiers of the regex occurrences `<word-run><one whitespace
character>device<word boundary>`; a text that is a single line
`<identifier><one whitespace>device` yields exactly that identifier, the
tab-separated and single-space variants of the example yield
`[ABC123, DEF456]` in order with the header line ignored, while the
claim's two-space text matches nothing; and the method applies this scan
to the output of `adb devices`. -/
theorem c4_device_list :
    (∀ (id : List Char) (ws : Char), id ≠ [] →
      (∀ c ∈ id, isWordChar c = true) → isSpaceChar ws = true →
      findallDevice (String.mk (id ++ ws :: deviceToken)) = [String.mk id]) ∧
    findallDevice "List of devices attached\nABC123\tdevice\nDEF456\tdevice" =
      ["ABC123", "DEF456"] ∧
    findallDevice "List of devices attached\nABC123 device\nDEF456 device" =
      ["ABC123", "DEF456"] ∧
    findallDevice "List of devices attached\nABC123  device\nDEF456  device" = [] ∧
    (∀ (st : ADBState) (world : World),
      (ADB.get_connected_device_list st world).2.2 =
        (runShellLine world "adb devices").map findallDevice) := by
  refine ⟨?_, by decide, by decide, by decide, fun st world => rfl⟩
  intro id ws hne h hs
  show (goFind (id ++ ws :: deviceToken).length false (id ++ ws :: deviceToken)).map
    (fun w => String.mk w) = [String.mk id]
  have hl : (id ++ ws :: deviceToken).length = (id.length + 6) + 1 := by
    simp only [List.length_append, List.length_cons, List.length_nil, deviceToken]
  rw [hl, goFind_line (id.length + 6) id ws hne h hs]
  rfl

theorem c4_witness :
    isSpaceChar '\t' = true ∧
    findallDevice (String.mk (['A', 'B', 'C'] ++ '\t' :: deviceToken)) =
      [String.mk ['A', 'B', 'C']] :=
  ⟨by decide,
    c4_device_list.1 ['A', 'B', 'C'] '\t' (by decide) (by decide) (by decide)⟩
